import Mathlib

/-
Verification of the incident-response orchestration engine
(Enterprise Workflow Choreographer).

This file gives a shallow embedding, in Lean 4, of the engine's core:
the step dispatcher and workflow loop of
src/workflows/choreographer.py, the workflow-builder fallback of
src/agents/orchestrator.py, the responder selector, and the fixed
seven-stage playbook of src/workflows/incident_workflow.py.  Python
dictionaries of JSON-like payloads are modelled as association lists of
a JSON value type; collaborator calls (ServiceNow, Slack, GitHub,
Confluence, Jira, the AI decision service) are abstract functions
supplied as parameters, returning either a payload or a raised fault
(Except).  Wall-clock timestamps are modelled by an abstract tick
passed in as a natural number; uuid-generated identifiers, which are
fresh entropy never read by the engine, are modelled by a constant
default.
-/

set_option linter.unusedVariables false

/-- JSON-like value, the model of untyped Python payloads flowing
through collaborator results and step parameters. -/
inductive JVal where
  | null : JVal
  | bool (b : Bool) : JVal
  | num (n : Int) : JVal
  | str (s : String) : JVal
  | arr (elems : List JVal) : JVal
  | obj (fields : List (String × JVal)) : JVal

/-- A Python dict with string keys, as an association list. -/
abbrev Dict := List (String × JVal)

/-- Python d.get(k): the value at the first occurrence of the key,
none when absent. -/
def alistGet? {α : Type} : List (String × α) → String → Option α
  | [], _ => none
  | (k, v) :: rest, key => if k = key then some v else alistGet? rest key

/-- Python d[k] = v: replace the binding at the first occurrence of the
key, or append a new binding. -/
def alistSet {α : Type} : List (String × α) → String → α → List (String × α)
  | [], key, v => [(key, v)]
  | (k, w) :: rest, key, v =>
      if k = key then (key, v) :: rest else (k, w) :: alistSet rest key v

/-- Python truthiness of a value read out of a dict (a missing key,
read with .get, is the falsy None). -/
def JVal.truthyOpt : Option JVal → Bool
  | none => false
  | some .null => false
  | some (.bool b) => b
  | some (.num n) => n != 0
  | some (.str s) => s != ""
  | some (.arr elems) => elems.length != 0
  | some (.obj fields) => fields.length != 0

theorem alistGet?_alistSet_self {α : Type} (l : List (String × α)) (k : String) (v : α) :
    alistGet? (alistSet l k v) k = some v := by
  induction l with
  | nil => simp [alistGet?, alistSet]
  | cons p rest ih =>
      obtain ⟨k1, v1⟩ := p
      by_cases h : k1 = k <;> simp [alistGet?, alistSet, h, ih]

/- ===================== src/models.py ===================== -/

/-- models.IncidentSeverity. -/
inductive IncidentSeverity where
  | critical | high | medium | low
deriving DecidableEq, Repr

def IncidentSeverity.value : IncidentSeverity → String
  | .critical => "critical"
  | .high => "high"
  | .medium => "medium"
  | .low => "low"

/-- models.IncidentStatus. -/
inductive IncidentStatus where
  | detected | triaging | in_progress | mitigated | resolved | closed
deriving DecidableEq, Repr

def IncidentStatus.value : IncidentStatus → String
  | .detected => "detected"
  | .triaging => "triaging"
  | .in_progress => "in_progress"
  | .mitigated => "mitigated"
  | .resolved => "resolved"
  | .closed => "closed"

/-- models.IncidentCategory. -/
inductive IncidentCategory where
  | infrastructure | application | database | network
  | security | performance | integration | unknown
deriving DecidableEq, Repr

def IncidentCategory.value : IncidentCategory → String
  | .infrastructure => "infrastructure"
  | .application => "application"
  | .database => "database"
  | .network => "network"
  | .security => "security"
  | .performance => "performance"
  | .integration => "integration"
  | .unknown => "unknown"

/-- models.Incident.  The four external-reference fields and the
hypothesis are written by the engine from untyped payload reads
(result.data.get(...)), so they carry Option JVal. -/
structure Incident where
  id : String
  title : String
  description : String
  severity : IncidentSeverity
  status : IncidentStatus := .detected
  category : IncidentCategory := .unknown
  source_system : String := ""
  source_alert_id : Option String := none
  affected_services : List String := []
  affected_components : List String := []
  servicenow_ticket_id : Option JVal := none
  github_issue_url : Option JVal := none
  slack_channel_id : Option JVal := none
  confluence_page_id : Option JVal := none
  assigned_team : Option String := none
  assigned_responders : List String := []
  root_cause_hypothesis : Option JVal := none
  resolution_steps : List String := []
  detected_at : Nat := 0
  acknowledged_at : Option Nat := none
  mitigated_at : Option Nat := none
  resolved_at : Option Nat := none
  tags : List String := []
  metadata : Dict := []

/-- models.WorkflowStep.  The uuid id is modelled by a constant default
(fresh entropy, never read by the engine). -/
structure WorkflowStep where
  id : String := ""
  name : String
  action : String
  target_tool : String
  parameters : Dict := []
  status : String := "pending"
  result : Option Dict := none
  error : Option String := none
  started_at : Option Nat := none
  completed_at : Option Nat := none

/-- models.Workflow. -/
structure Workflow where
  id : String := ""
  incident_id : String
  name : String
  description : String
  steps : List WorkflowStep := []
  current_step_index : Nat := 0
  status : String := "pending"
  created_at : Nat := 0
  started_at : Option Nat := none
  completed_at : Option Nat := none

/-- models.TeamMember. -/
structure TeamMember where
  id : String
  name : String
  email : String
  slack_user_id : Option String := none
  github_username : Option String := none
  teams : List String := []
  skills : List String := []
  on_call : Bool := false
deriving DecidableEq, Repr

/-- models.ActionResult.  The creation timestamp (wall-clock entropy,
never read by the engine) is omitted.  The error field is written from
untyped payload reads in some handlers, so it carries Option JVal. -/
structure ActionResult where
  success : Bool
  action : String
  tool : String
  message : String
  data : Option Dict := none
  error : Option JVal := none

/-- choreographer.WorkflowStatus. -/
inductive WorkflowStatus where
  | pending | running | paused | completed | failed | cancelled
deriving DecidableEq, Repr

def WorkflowStatus.value : WorkflowStatus → String
  | .pending => "pending"
  | .running => "running"
  | .paused => "paused"
  | .completed => "completed"
  | .failed => "failed"
  | .cancelled => "cancelled"

/- ======== src/workflows/choreographer.py : step dispatcher ======== -/

/-- The per-run mutable context built in _execute_workflow: the
incident, the roster, and the mapping from action identifier to that
action's ActionResult. -/
structure Context where
  incident : Incident
  team_members : List TeamMember
  results : List (String × ActionResult)

/-- What one invocation of an action handler does: either return an
ActionResult, or raise a fault with the given description; either way
it may have mutated the context (incident, results) first. -/
inductive HandlerOutcome where
  | ok (ctx : Context) (result : ActionResult)
  | exn (ctx : Context) (msg : String)

/-- An action handler, as invoked by the dispatcher with (step, context). -/
abbrev Handler := WorkflowStep → Context → HandlerOutcome

/-- WorkflowChoreographer._execute_step.  Sets the step running, looks
the action up in the handler mapping; an unknown action returns an
immediate failed ActionResult without invoking anything; a fault raised
by the handler is caught at this boundary and converted into a failed
ActionResult carrying the fault description (the try/except around the
handler call), so the function is total: no handler fault escapes. -/
def execute_step (handlers : List (String × Handler)) (now : Nat)
    (step : WorkflowStep) (ctx : Context) : WorkflowStep × Context × ActionResult :=
  let step := { step with status := "running", started_at := some now }
  match alistGet? handlers step.action with
  | none =>
      (step, ctx,
        { success := false, action := step.action, tool := step.target_tool,
          message := "Unknown action: " ++ step.action,
          error := some (.str "No handler registered for action") })
  | some handler =>
      match handler step ctx with
      | .ok ctxA result => (step, ctxA, result)
      | .exn ctxA msg =>
          (step, ctxA,
            { success := false, action := step.action, tool := step.target_tool,
              message := "Action failed: " ++ msg,
              error := some (.str msg) })

/-- WorkflowChoreographer._update_incident_from_result.  On a
successful result, writes the enumerated whitelist field keyed by the
step's action from the result payload; otherwise leaves the incident
unchanged. -/
def update_incident_from_result (incident : Incident) (step : WorkflowStep)
    (result : ActionResult) : Incident :=
  if result.success = false then incident
  else
    let data := result.data.getD []
    if step.action = "create_ticket" then
      { incident with servicenow_ticket_id := alistGet? data "number" }
    else if step.action = "create_channel" then
      { incident with slack_channel_id := alistGet? data "channel_id" }
    else if step.action = "create_postmortem" then
      { incident with confluence_page_id := alistGet? data "page_id" }
    else if step.action = "generate_hypothesis" then
      { incident with root_cause_hypothesis := alistGet? data "hypothesis" }
    else incident

/-- WorkflowChoreographer._is_critical_step. -/
def is_critical_step (step : WorkflowStep) : Bool :=
  ["create_ticket"].contains step.action

/-- One iteration of the loop body of
WorkflowChoreographer._execute_workflow: dispatch the step, mark it
completed or failed from the result's success flag, copy the result
payload onto the step, record the result in the context keyed by
action, and update the incident through the whitelist.  The loop's own
except-branch (which would set step.error from a caught fault) is
unreachable here: _execute_step catches every handler fault itself, and
the remaining bookkeeping calls are total, so that branch is omitted
from the embedding. -/
def exec_one (handlers : List (String × Handler)) (now : Nat)
    (ctx : Context) (step : WorkflowStep) : Context × WorkflowStep :=
  let out := execute_step handlers now step ctx
  let stepA := { out.1 with
    status := if out.2.2.success then "completed" else "failed",
    result := out.2.2.data,
    completed_at := some now }
  let ctxA := { out.2.1 with results := alistSet out.2.1.results stepA.action out.2.2 }
  let ctxB := { ctxA with incident := update_incident_from_result ctxA.incident stepA out.2.2 }
  (ctxB, stepA)

/-- The step loop of WorkflowChoreographer._execute_workflow, threading
the context through the steps in order and returning the mutated
steps. -/
def run_steps (handlers : List (String × Handler)) (now : Nat) :
    Context → List WorkflowStep → Context × List WorkflowStep
  | ctx, [] => (ctx, [])
  | ctx, step :: rest =>
      let one := exec_one handlers now ctx step
      let more := run_steps handlers now one.1 rest
      (more.1, one.2 :: more.2)

/-- WorkflowChoreographer._execute_workflow: mark the workflow running,
build the context, run every step sequentially, then mark the workflow
completed regardless of step failures. -/
def execute_workflow (handlers : List (String × Handler)) (now : Nat)
    (workflow : Workflow) (incident : Incident)
    (team_members : List TeamMember) : Workflow × Context :=
  let wf := { workflow with status := WorkflowStatus.running.value, started_at := some now }
  let ctx : Context := { incident := incident, team_members := team_members, results := [] }
  let out := run_steps handlers now ctx wf.steps
  ({ wf with
      steps := out.2,
      current_step_index :=
        if wf.steps.isEmpty then wf.current_step_index else wf.steps.length - 1,
      status := WorkflowStatus.completed.value,
      completed_at := some now },
   out.1)

/-- WorkflowChoreographer._handle_create_ticket.  The ServiceNow
collaborator call is an abstract function returning a payload dict or
raising; the feature flag config.features.auto_ticketing is a
parameter.  When the flag is off the handler returns a successful
skipped result without any collaborator call. -/
def handle_create_ticket (auto_ticketing : Bool)
    (snow_create : Incident → Except String Dict) : Handler :=
  fun step ctx =>
    if auto_ticketing = false then
      .ok ctx
        { success := true, action := step.action, tool := "servicenow",
          message := "Auto-ticketing disabled",
          data := some [("skipped", .bool true)] }
    else
      match snow_create ctx.incident with
      | .error msg => .exn ctx msg
      | .ok result =>
          if JVal.truthyOpt (alistGet? result "success") then
            let incident := { ctx.incident with servicenow_ticket_id := alistGet? result "number" }
            .ok { ctx with incident := incident }
              { success := true, action := step.action, tool := "servicenow",
                message := "Created ticket", data := some result }
          else
            .ok ctx
              { success := false, action := step.action, tool := "servicenow",
                message := "Failed to create ticket",
                error := alistGet? result "error" }

/- ======== Dispatcher theorems (C1, C2, C4) ======== -/

theorem exec_one_status (handlers : List (String × Handler)) (now : Nat)
    (ctx : Context) (step : WorkflowStep) :
    (exec_one handlers now ctx step).2.status = "completed"
    ∨ (exec_one handlers now ctx step).2.status = "failed" := by
  dsimp only [exec_one]
  by_cases h : (execute_step handlers now step ctx).2.2.success <;> simp [h]

theorem run_steps_status (handlers : List (String × Handler)) (now : Nat) :
    ∀ (steps : List WorkflowStep) (ctx : Context),
      ∀ s ∈ (run_steps handlers now ctx steps).2,
        s.status = "completed" ∨ s.status = "failed" := by
  intro steps
  induction steps with
  | nil => intro ctx s hs; simp [run_steps] at hs
  | cons step rest ih =>
      intro ctx s hs
      simp only [run_steps, List.mem_cons] at hs
      rcases hs with rfl | hs
      · exact exec_one_status handlers now ctx step
      · exact ih _ s hs

/-- C1: whatever the step and the handler behaviour, if the handler
invoked by the dispatcher raises a fault, _execute_step catches it at
the dispatch boundary and returns a failed ActionResult whose error
field is exactly the fault description (and whose message prefixes it
with "Action failed: "); the embedding of _execute_step is a total
function, reflecting that no handler fault ever propagates out of it. -/
theorem dispatcher_converts_handler_fault
    (handlers : List (String × Handler)) (now : Nat) (step : WorkflowStep)
    (ctx ctxA : Context) (h : Handler) (msg : String)
    (hlook : alistGet? handlers step.action = some h)
    (hrun : h { step with status := "running", started_at := some now } ctx
              = HandlerOutcome.exn ctxA msg) :
    (execute_step handlers now step ctx).2.2 =
      { success := false, action := step.action, tool := step.target_tool,
        message := "Action failed: " ++ msg, error := some (JVal.str msg) } := by
  have hlook2 : alistGet? handlers
      ({ step with status := "running", started_at := some now } : WorkflowStep).action
        = some h := hlook
  dsimp only [execute_step]
  rw [hlook2]
  dsimp only
  rw [hrun]

def wIncident : Incident :=
  { id := "inc-1", title := "DB down", description := "outage",
    severity := .high, category := .database }

def wCtx : Context := { incident := wIncident, team_members := [], results := [] }

def wStep : WorkflowStep :=
  { name := "Create Ticket", action := "create_ticket", target_tool := "servicenow" }

def wExnHandler : Handler := fun _ ctx => .exn ctx "boom"

theorem dispatcher_converts_handler_fault_witness :
    (execute_step [("create_ticket", wExnHandler)] 0 wStep wCtx).2.2 =
      { success := false, action := wStep.action, tool := wStep.target_tool,
        message := "Action failed: " ++ "boom", error := some (JVal.str "boom") } :=
  dispatcher_converts_handler_fault [("create_ticket", wExnHandler)] 0 wStep
    wCtx wCtx wExnHandler "boom" rfl rfl

/-- C2: for every handler mapping (hence every mix of handler outcomes:
success, failed result, or raised fault) and every step sequence, after
_execute_workflow returns the workflow status is "completed" and every
step ends "completed" or "failed" (hence within the terminal set
containing "skipped" as well), never "pending" or "running". -/
theorem workflow_reaches_completed_and_steps_terminal
    (handlers : List (String × Handler)) (now : Nat) (wf : Workflow)
    (incident : Incident) (team : List TeamMember) :
    (execute_workflow handlers now wf incident team).1.status = "completed"
    ∧ ∀ s ∈ (execute_workflow handlers now wf incident team).1.steps,
        (s.status = "completed" ∨ s.status = "failed" ∨ s.status = "skipped")
        ∧ s.status ≠ "pending" ∧ s.status ≠ "running" := by
  constructor
  · rfl
  · intro s hs
    have hterm : s.status = "completed" ∨ s.status = "failed" := by
      apply run_steps_status handlers now wf.steps
        { incident := incident, team_members := team, results := [] }
      exact hs
    rcases hterm with h | h
    · exact ⟨Or.inl h, by rw [h]; decide, by rw [h]; decide⟩
    · exact ⟨Or.inr (Or.inl h), by rw [h]; decide, by rw [h]; decide⟩

def wWf : Workflow :=
  { incident_id := "inc-1", name := "Incident Response", description := "run",
    steps := [wStep] }

def wStep0 : WorkflowStep :=
  (exec_one [] 0 { incident := wIncident, team_members := [], results := [] } wStep).2

theorem workflow_reaches_completed_witness :
    (execute_workflow [] 0 wWf wIncident []).1.status = "completed"
    ∧ (wStep0.status = "completed" ∨ wStep0.status = "failed" ∨ wStep0.status = "skipped")
    ∧ wStep0.status ≠ "pending" ∧ wStep0.status ≠ "running" :=
  ⟨(workflow_reaches_completed_and_steps_terminal [] 0 wWf wIncident []).1,
   (workflow_reaches_completed_and_steps_terminal [] 0 wWf wIncident []).2 wStep0
     (List.mem_cons_self wStep0 [])⟩

/-- C4: a step whose action identifier is absent from the handler
mapping makes _execute_step return an immediate failed ActionResult
with non-empty error text; the returned context is the input context
unchanged (no side effect on the incident or the accumulated results),
and the outcome is the same whatever the handlers in the mapping do,
so no handler or collaborator is invoked. -/
theorem unknown_action_fails_fast
    (handlers : List (String × Handler)) (now : Nat) (step : WorkflowStep)
    (ctx : Context)
    (hlook : alistGet? handlers step.action = none) :
    execute_step handlers now step ctx =
      ({ step with status := "running", started_at := some now }, ctx,
       { success := false, action := step.action, tool := step.target_tool,
         message := "Unknown action: " ++ step.action,
         error := some (JVal.str "No handler registered for action") })
    ∧ (execute_step handlers now step ctx).2.1 = ctx
    ∧ (execute_step handlers now step ctx).2.2.success = false
    ∧ (execute_step handlers now step ctx).2.2.error ≠ none := by
  have hlook2 : alistGet? handlers
      ({ step with status := "running", started_at := some now } : WorkflowStep).action
        = none := hlook
  have hmain : execute_step handlers now step ctx =
      ({ step with status := "running", started_at := some now }, ctx,
       { success := false, action := step.action, tool := step.target_tool,
         message := "Unknown action: " ++ step.action,
         error := some (JVal.str "No handler registered for action") }) := by
    dsimp only [execute_step]
    rw [hlook2]
  refine ⟨hmain, by rw [hmain], by rw [hmain], by rw [hmain]; simp⟩

theorem unknown_action_fails_fast_witness :
    execute_step [] 0 wStep wCtx =
      ({ wStep with status := "running", started_at := some 0 }, wCtx,
       { success := false, action := wStep.action, tool := wStep.target_tool,
         message := "Unknown action: " ++ wStep.action,
         error := some (JVal.str "No handler registered for action") })
    ∧ (execute_step [] 0 wStep wCtx).2.1 = wCtx
    ∧ (execute_step [] 0 wStep wCtx).2.2.success = false
    ∧ (execute_step [] 0 wStep wCtx).2.2.error ≠ none :=
  unknown_action_fails_fast [] 0 wStep wCtx rfl

/- ======== Dispatcher theorems (C5, C8, C9, C10) ======== -/

theorem execute_step_fst (handlers : List (String × Handler)) (now : Nat)
    (step : WorkflowStep) (ctx : Context) :
    (execute_step handlers now step ctx).1
      = { step with status := "running", started_at := some now } := by
  dsimp only [execute_step]
  split
  · rfl
  · split <;> rfl

/-- A handler that returns a failed ActionResult (the collaborator
reported failure) without raising, as _handle_create_ticket does when
ServiceNow answers success=false. -/
def cxFailHandler : Handler := fun step ctx =>
  .ok ctx
    { success := false, action := step.action, tool := "servicenow",
      message := "Failed to create ticket", error := some (.str "ServiceNow 503") }

/-- C5 counterexample: a one-step run whose ticket-creation handler
returns a failed ActionResult completes with the ticket step at status
"failed" while the step's error field is still unset (none): the
workflow loop never copies result.error onto the step, so "error text
present iff status failed" is false on the code. -/
theorem step_error_unset_counterexample :
    (execute_workflow [("create_ticket", cxFailHandler)] 0 wWf wIncident []).1.status
        = "completed"
    ∧ ((execute_workflow [("create_ticket", cxFailHandler)] 0 wWf wIncident []).1.steps.map
          (fun s => (s.status, s.error)))
        = [("failed", (none : Option String))] :=
  ⟨rfl, rfl⟩

theorem exec_one_error_eq (handlers : List (String × Handler)) (now : Nat)
    (ctx : Context) (step : WorkflowStep) :
    (exec_one handlers now ctx step).2.error = step.error := by
  dsimp only [exec_one]
  rw [execute_step_fst]

/-- C5 (amended): after a run, every step's error field is exactly as
it started — unset for freshly built steps — whatever the handlers did:
handler faults are absorbed into the ActionResult by _execute_step, so
the loop's error-assignment branch is never reached; instead the
ActionResult recorded in the context under the step's action carries
the failure data, the step's result payload equals that ActionResult's
data whether the step completed or failed, and the step is "failed"
exactly when that ActionResult is unsuccessful. -/
theorem step_error_and_result_fields :
    (∀ (handlers : List (String × Handler)) (now : Nat) (ctx : Context)
        (step : WorkflowStep), step.error = none →
        (exec_one handlers now ctx step).2.error = none
        ∧ alistGet? (exec_one handlers now ctx step).1.results step.action
            = some (execute_step handlers now step ctx).2.2
        ∧ (exec_one handlers now ctx step).2.result
            = (execute_step handlers now step ctx).2.2.data
        ∧ (exec_one handlers now ctx step).2.status
            = (if (execute_step handlers now step ctx).2.2.success
                then "completed" else "failed")
        ∧ ((exec_one handlers now ctx step).2.status = "failed"
            ↔ (execute_step handlers now step ctx).2.2.success = false))
    ∧ (∀ (handlers : List (String × Handler)) (now : Nat) (ctx : Context)
        (steps : List WorkflowStep), (∀ s ∈ steps, s.error = none) →
        ∀ s ∈ (run_steps handlers now ctx steps).2, s.error = none) := by
  constructor
  · intro handlers now ctx step herr
    have hfst := execute_step_fst handlers now step ctx
    refine ⟨?_, ?_, ?_, ?_, ?_⟩
    · dsimp only [exec_one]; rw [hfst]; exact herr
    · dsimp only [exec_one]; rw [hfst]
      exact alistGet?_alistSet_self _ _ _
    · rfl
    · rfl
    · dsimp only [exec_one]
      by_cases hsucc : (execute_step handlers now step ctx).2.2.success <;> simp [hsucc]
  · intro handlers now ctx steps
    induction steps generalizing ctx with
    | nil => intro hin s hs; simp [run_steps] at hs
    | cons step rest ih =>
        intro hin s hs
        simp only [run_steps, List.mem_cons] at hs
        rcases hs with rfl | hs
        · rw [exec_one_error_eq]
          exact hin step (List.mem_cons_self step rest)
        · exact ih _ (fun t ht => hin t (List.mem_cons_of_mem step ht)) s hs

theorem step_error_and_result_fields_witness :
    ((exec_one [("create_ticket", cxFailHandler)] 0 wCtx wStep).2.error = none
     ∧ alistGet? (exec_one [("create_ticket", cxFailHandler)] 0 wCtx wStep).1.results wStep.action
         = some (execute_step [("create_ticket", cxFailHandler)] 0 wStep wCtx).2.2
     ∧ (exec_one [("create_ticket", cxFailHandler)] 0 wCtx wStep).2.result
         = (execute_step [("create_ticket", cxFailHandler)] 0 wStep wCtx).2.2.data
     ∧ (exec_one [("create_ticket", cxFailHandler)] 0 wCtx wStep).2.status
         = (if (execute_step [("create_ticket", cxFailHandler)] 0 wStep wCtx).2.2.success
             then "completed" else "failed")
     ∧ ((exec_one [("create_ticket", cxFailHandler)] 0 wCtx wStep).2.status = "failed"
         ↔ (execute_step [("create_ticket", cxFailHandler)] 0 wStep wCtx).2.2.success = false))
    ∧ (∀ s ∈ (run_steps [("create_ticket", cxFailHandler)] 0 wCtx [wStep]).2,
        s.error = none) :=
  ⟨step_error_and_result_fields.1 [("create_ticket", cxFailHandler)] 0 wCtx wStep rfl,
   step_error_and_result_fields.2 [("create_ticket", cxFailHandler)] 0 wCtx [wStep]
     (fun s hs => by
        rcases List.mem_singleton.mp hs with rfl
        rfl)⟩

theorem handle_create_ticket_collab_fail
    (snow : Incident → Except String Dict) (step : WorkflowStep) (ctx : Context)
    (d : Dict)
    (hsnow : snow ctx.incident = Except.ok d)
    (hfail : JVal.truthyOpt (alistGet? d "success") = false) :
    handle_create_ticket true snow step ctx
      = HandlerOutcome.ok ctx
          { success := false, action := step.action, tool := "servicenow",
            message := "Failed to create ticket", error := alistGet? d "error" } := by
  simp [handle_create_ticket, hsnow, hfail]

theorem handle_create_ticket_disabled
    (snow : Incident → Except String Dict) (step : WorkflowStep) (ctx : Context) :
    handle_create_ticket false snow step ctx
      = HandlerOutcome.ok ctx
          { success := true, action := step.action, tool := "servicenow",
            message := "Auto-ticketing disabled",
            data := some [("skipped", JVal.bool true)] } := rfl

theorem execute_step_create_ticket_collab_fail
    (snow : Incident → Except String Dict) (now : Nat) (ctx : Context)
    (step : WorkflowStep) (d : Dict)
    (ha : step.action = "create_ticket")
    (hsnow : snow ctx.incident = Except.ok d)
    (hfail : JVal.truthyOpt (alistGet? d "success") = false) :
    execute_step [("create_ticket", handle_create_ticket true snow)] now step ctx
      = ({ step with status := "running", started_at := some now }, ctx,
         { success := false, action := "create_ticket", tool := "servicenow",
           message := "Failed to create ticket", error := alistGet? d "error" }) := by
  obtain ⟨sid, sname, saction, stool, sparams, sstatus, sres, serr, sstart, sdone⟩ := step
  dsimp only at ha
  subst ha
  dsimp only [execute_step]
  simp only [alistGet?, if_pos]
  rw [handle_create_ticket_collab_fail snow _ ctx d hsnow hfail]

theorem execute_step_ticketing_disabled
    (snow : Incident → Except String Dict) (now : Nat) (ctx : Context)
    (step : WorkflowStep)
    (ha : step.action = "create_ticket") :
    execute_step [("create_ticket", handle_create_ticket false snow)] now step ctx
      = ({ step with status := "running", started_at := some now }, ctx,
         { success := true, action := "create_ticket", tool := "servicenow",
           message := "Auto-ticketing disabled",
           data := some [("skipped", JVal.bool true)] }) := by
  obtain ⟨sid, sname, saction, stool, sparams, sstatus, sres, serr, sstart, sdone⟩ := step
  dsimp only at ha
  subst ha
  dsimp only [execute_step]
  simp only [alistGet?, if_pos]
  rw [handle_create_ticket_disabled snow _ ctx]

/-- C8: the dispatcher's incident update ignores unsuccessful results —
for every step and every failed ActionResult it returns the incident
with every field unchanged; in particular, when the create_ticket
handler's ServiceNow call reports failure, processing the ticket step
leaves the whole incident (hence its servicenow_ticket_id) exactly as
it was, and the step ends failed. -/
theorem failed_result_leaves_incident_unchanged :
    (∀ (incident : Incident) (step : WorkflowStep) (result : ActionResult),
        result.success = false →
        update_incident_from_result incident step result = incident)
    ∧ ∀ (snow : Incident → Except String Dict) (now : Nat) (ctx : Context)
        (step : WorkflowStep) (d : Dict),
        step.action = "create_ticket" →
        snow ctx.incident = Except.ok d →
        JVal.truthyOpt (alistGet? d "success") = false →
        (exec_one [("create_ticket", handle_create_ticket true snow)] now ctx step).1.incident
            = ctx.incident
        ∧ (exec_one [("create_ticket", handle_create_ticket true snow)] now ctx step).2.status
            = "failed" := by
  constructor
  · intro incident step result h
    simp [update_incident_from_result, h]
  · intro snow now ctx step d ha hsnow hfail
    have hstep := execute_step_create_ticket_collab_fail snow now ctx step d ha hsnow hfail
    constructor
    · dsimp only [exec_one]
      rw [hstep]
      simp [update_incident_from_result]
    · dsimp only [exec_one]
      rw [hstep]
      simp

def wSnowFail : Incident → Except String Dict :=
  fun _ => .ok [("success", .bool false), ("error", .str "HTTP 503")]

def wFailedResult : ActionResult :=
  { success := false, action := "create_ticket", tool := "servicenow",
    message := "Failed to create ticket", error := some (.str "HTTP 503") }

theorem failed_result_leaves_incident_unchanged_witness :
    (update_incident_from_result wIncident wStep wFailedResult = wIncident)
    ∧ ((exec_one [("create_ticket", handle_create_ticket true wSnowFail)] 0 wCtx wStep).1.incident
          = wCtx.incident
       ∧ (exec_one [("create_ticket", handle_create_ticket true wSnowFail)] 0 wCtx wStep).2.status
          = "failed") :=
  ⟨failed_result_leaves_incident_unchanged.1 wIncident wStep wFailedResult rfl,
   failed_result_leaves_incident_unchanged.2 wSnowFail 0 wCtx wStep
     [("success", JVal.bool false), ("error", JVal.str "HTTP 503")] rfl rfl rfl⟩

/-- Field-by-field agreement of two incidents on every field outside
the dispatcher's whitelist (everything except servicenow_ticket_id,
slack_channel_id, confluence_page_id and root_cause_hypothesis). -/
def nonWhitelistEq (a b : Incident) : Prop :=
  a.id = b.id ∧ a.title = b.title ∧ a.description = b.description
  ∧ a.severity = b.severity ∧ a.status = b.status ∧ a.category = b.category
  ∧ a.source_system = b.source_system ∧ a.source_alert_id = b.source_alert_id
  ∧ a.affected_services = b.affected_services
  ∧ a.affected_components = b.affected_components
  ∧ a.github_issue_url = b.github_issue_url
  ∧ a.assigned_team = b.assigned_team
  ∧ a.assigned_responders = b.assigned_responders
  ∧ a.resolution_steps = b.resolution_steps
  ∧ a.detected_at = b.detected_at ∧ a.acknowledged_at = b.acknowledged_at
  ∧ a.mitigated_at = b.mitigated_at ∧ a.resolved_at = b.resolved_at
  ∧ a.tags = b.tags ∧ a.metadata = b.metadata

/-- C9: on a successful result, _update_incident_from_result writes
only the enumerated whitelist of incident fields keyed by the step's
action — the ticket id for create_ticket, the channel id for
create_channel, the page id for create_postmortem, the hypothesis for
generate_hypothesis, each read from the result payload — every other
incident field is unchanged, each whitelisted field is unchanged unless
its own action fired, and any action outside the whitelist leaves the
incident entirely unchanged. -/
theorem update_incident_whitelist_frame
    (incident : Incident) (step : WorkflowStep) (result : ActionResult)
    (hsucc : result.success = true) :
    nonWhitelistEq incident (update_incident_from_result incident step result)
    ∧ (step.action ∉ (["create_ticket", "create_channel", "create_postmortem",
          "generate_hypothesis"] : List String) →
        update_incident_from_result incident step result = incident)
    ∧ (step.action = "create_ticket" →
        (update_incident_from_result incident step result).servicenow_ticket_id
          = alistGet? (result.data.getD []) "number")
    ∧ (step.action ≠ "create_ticket" →
        (update_incident_from_result incident step result).servicenow_ticket_id
          = incident.servicenow_ticket_id)
    ∧ (step.action = "create_channel" →
        (update_incident_from_result incident step result).slack_channel_id
          = alistGet? (result.data.getD []) "channel_id")
    ∧ (step.action ≠ "create_channel" →
        (update_incident_from_result incident step result).slack_channel_id
          = incident.slack_channel_id)
    ∧ (step.action = "create_postmortem" →
        (update_incident_from_result incident step result).confluence_page_id
          = alistGet? (result.data.getD []) "page_id")
    ∧ (step.action ≠ "create_postmortem" →
        (update_incident_from_result incident step result).confluence_page_id
          = incident.confluence_page_id)
    ∧ (step.action = "generate_hypothesis" →
        (update_incident_from_result incident step result).root_cause_hypothesis
          = alistGet? (result.data.getD []) "hypothesis")
    ∧ (step.action ≠ "generate_hypothesis" →
        (update_incident_from_result incident step result).root_cause_hypothesis
          = incident.root_cause_hypothesis) := by
  unfold update_incident_from_result nonWhitelistEq
  simp only [hsucc]
  split_ifs with h1 h2 h3 h4 <;> simp_all

def wTicketOkResult : ActionResult :=
  { success := true, action := "create_ticket", tool := "servicenow",
    message := "Created ticket",
    data := some [("success", .bool true), ("number", .str "INC0012345")] }

theorem update_incident_whitelist_frame_witness :
    nonWhitelistEq wIncident (update_incident_from_result wIncident wStep wTicketOkResult)
    ∧ (wStep.action ∉ (["create_ticket", "create_channel", "create_postmortem",
          "generate_hypothesis"] : List String) →
        update_incident_from_result wIncident wStep wTicketOkResult = wIncident)
    ∧ (wStep.action = "create_ticket" →
        (update_incident_from_result wIncident wStep wTicketOkResult).servicenow_ticket_id
          = alistGet? (wTicketOkResult.data.getD []) "number")
    ∧ (wStep.action ≠ "create_ticket" →
        (update_incident_from_result wIncident wStep wTicketOkResult).servicenow_ticket_id
          = wIncident.servicenow_ticket_id)
    ∧ (wStep.action = "create_channel" →
        (update_incident_from_result wIncident wStep wTicketOkResult).slack_channel_id
          = alistGet? (wTicketOkResult.data.getD []) "channel_id")
    ∧ (wStep.action ≠ "create_channel" →
        (update_incident_from_result wIncident wStep wTicketOkResult).slack_channel_id
          = wIncident.slack_channel_id)
    ∧ (wStep.action = "create_postmortem" →
        (update_incident_from_result wIncident wStep wTicketOkResult).confluence_page_id
          = alistGet? (wTicketOkResult.data.getD []) "page_id")
    ∧ (wStep.action ≠ "create_postmortem" →
        (update_incident_from_result wIncident wStep wTicketOkResult).confluence_page_id
          = wIncident.confluence_page_id)
    ∧ (wStep.action = "generate_hypothesis" →
        (update_incident_from_result wIncident wStep wTicketOkResult).root_cause_hypothesis
          = alistGet? (wTicketOkResult.data.getD []) "hypothesis")
    ∧ (wStep.action ≠ "generate_hypothesis" →
        (update_incident_from_result wIncident wStep wTicketOkResult).root_cause_hypothesis
          = wIncident.root_cause_hypothesis) :=
  update_incident_whitelist_frame wIncident wStep wTicketOkResult rfl

/-- C10: with the auto-ticketing feature flag disabled, processing a
create_ticket step never consults the ServiceNow collaborator (the
conclusion holds for every collaborator function alike), the handler
returns a successful skipped-marker result, so the step ends
"completed" — never "skipped" — and the follow-up incident update then
assigns servicenow_ticket_id from data.get("number"), which is absent
from the skipped payload, clearing any previously stored ticket id to
none. -/
theorem ticketing_disabled_completes_and_clears_ticket_id
    (snow : Incident → Except String Dict) (now : Nat) (ctx : Context)
    (step : WorkflowStep) (ha : step.action = "create_ticket") :
    (exec_one [("create_ticket", handle_create_ticket false snow)] now ctx step).2.status
        = "completed"
    ∧ (exec_one [("create_ticket", handle_create_ticket false snow)] now ctx step).2.status
        ≠ "skipped"
    ∧ (exec_one [("create_ticket", handle_create_ticket false snow)] now ctx step).2.result
        = some [("skipped", JVal.bool true)]
    ∧ (exec_one [("create_ticket", handle_create_ticket false snow)] now ctx step).1.incident
        = { ctx.incident with servicenow_ticket_id := none } := by
  have hstep := execute_step_ticketing_disabled snow now ctx step ha
  refine ⟨?_, ?_, ?_, ?_⟩ <;> dsimp only [exec_one] <;> rw [hstep] <;>
    simp [update_incident_from_result, ha, alistGet?]

def wCtxTicketed : Context :=
  { incident := { wIncident with servicenow_ticket_id := some (.str "INC-OLD") },
    team_members := [], results := [] }

theorem ticketing_disabled_witness :
    (exec_one [("create_ticket", handle_create_ticket false wSnowFail)] 0 wCtxTicketed wStep).2.status
        = "completed"
    ∧ (exec_one [("create_ticket", handle_create_ticket false wSnowFail)] 0 wCtxTicketed wStep).2.status
        ≠ "skipped"
    ∧ (exec_one [("create_ticket", handle_create_ticket false wSnowFail)] 0 wCtxTicketed wStep).2.result
        = some [("skipped", JVal.bool true)]
    ∧ (exec_one [("create_ticket", handle_create_ticket false wSnowFail)] 0 wCtxTicketed wStep).1.incident
        = { wCtxTicketed.incident with servicenow_ticket_id := none } :=
  ticketing_disabled_completes_and_clears_ticket_id wSnowFail 0 wCtxTicketed wStep rfl

/- ======== src/agents/orchestrator.py : workflow builder ======== -/

/-- AIOrchestrator._get_default_workflow_steps: the deterministic
severity-based fallback plan built when the AI recommendation fails.
Always a ticket-creation and a channel-creation step; for critical or
high severity additionally a team-notification and a commit-analysis
step; always terminated by a post-mortem step. -/
def get_default_workflow_steps (incident : Incident) : List WorkflowStep :=
  let steps : List WorkflowStep :=
    [{ name := "Create ServiceNow Ticket", action := "create_ticket",
       target_tool := "servicenow",
       parameters := [("incident_id", .str incident.id)] },
     { name := "Create Incident Channel", action := "create_channel",
       target_tool := "slack",
       parameters := [("incident_id", .str incident.id)] }]
  let steps :=
    if incident.severity = .critical ∨ incident.severity = .high then
      steps ++
        [{ name := "Notify Response Team", action := "notify_team",
           target_tool := "slack", parameters := [("urgency", .str "high")] },
         { name := "Analyze Recent Changes", action := "analyze_commits",
           target_tool := "github", parameters := [("hours_back", .num 24)] }]
    else steps
  steps ++
    [{ name := "Create Post-Mortem Template", action := "create_postmortem",
       target_tool := "confluence",
       parameters := [("incident_id", .str incident.id)] }]

/-- AIOrchestrator.recommend_workflow_steps, with the Decision Provider
interaction abstracted as its observable outcome: the decoded argument
stands for generate_text followed by json.loads and per-step field
extraction, whose failure modes (provider fault, invalid JSON, payload
not an array of step objects) all land in the error case, caught by the
surrounding try; step objects come with missing fields already
defaulted (name "Unknown Step", action "unknown", tool "unknown", empty
parameters).  On any failure the deterministic fallback plan is
returned instead. -/
def recommend_workflow_steps (decoded : Except String (List WorkflowStep))
    (incident : Incident) : List WorkflowStep :=
  match decoded with
  | .ok steps => steps
  | .error _ => get_default_workflow_steps incident

/-- C3: when the Decision Provider call raises or its response is
unparsable, recommend_workflow_steps does not propagate the failure but
returns the severity-based fallback plan; the fallback's action
sequence is [create_ticket, create_channel, create_postmortem] for
medium or low severity and [create_ticket, create_channel, notify_team,
analyze_commits, create_postmortem] for critical or high severity; and
the fallback is deterministic — being a pure function, two invocations
on the same incident coincide, and any two incidents of equal severity
yield the same (name, action, tool) step sequence. -/
theorem fallback_plan_on_provider_failure :
    (∀ (e : String) (incident : Incident),
        recommend_workflow_steps (.error e) incident
          = get_default_workflow_steps incident)
    ∧ (∀ incident : Incident,
        (get_default_workflow_steps incident).map (fun s => s.action)
          = if incident.severity = .critical ∨ incident.severity = .high then
              ["create_ticket", "create_channel", "notify_team",
               "analyze_commits", "create_postmortem"]
            else
              ["create_ticket", "create_channel", "create_postmortem"])
    ∧ (∀ a b : Incident, a.severity = b.severity →
        (get_default_workflow_steps a).map (fun s => (s.name, s.action, s.target_tool))
          = (get_default_workflow_steps b).map (fun s => (s.name, s.action, s.target_tool))) := by
  refine ⟨fun e incident => rfl, ?_, ?_⟩
  · intro incident
    cases h : incident.severity <;> simp [get_default_workflow_steps, h]
  · intro a b hsev
    cases ha : a.severity <;> cases hb : b.severity <;>
      simp_all [get_default_workflow_steps]

def wIncidentLow : Incident :=
  { id := "inc-2", title := "Slow queries", description := "latency",
    severity := .low, category := .database }

theorem fallback_plan_witness :
    recommend_workflow_steps (.error "watsonx timeout") wIncidentLow
        = get_default_workflow_steps wIncidentLow
    ∧ (get_default_workflow_steps wIncidentLow).map (fun s => s.action)
        = ["create_ticket", "create_channel", "create_postmortem"]
    ∧ (get_default_workflow_steps wIncidentLow).map (fun s => (s.name, s.action, s.target_tool))
        = (get_default_workflow_steps wIncidentLow).map (fun s => (s.name, s.action, s.target_tool)) :=
  ⟨fallback_plan_on_provider_failure.1 "watsonx timeout" wIncidentLow,
   by
    have h := fallback_plan_on_provider_failure.2.1 wIncidentLow
    simpa using h,
   fallback_plan_on_provider_failure.2.2 wIncidentLow wIncidentLow rfl⟩

/- ==== src/workflows/choreographer.py : responder selector (C6) ==== -/

/-- The fixed category → skill-keyword lexicon of
_select_relevant_team_members. -/
def category_skills : List (String × List String) :=
  [("database", ["postgresql", "mysql", "mongodb", "dba", "sql"]),
   ("infrastructure", ["kubernetes", "aws", "docker", "sre", "devops"]),
   ("network", ["networking", "dns", "load-balancer", "firewall"]),
   ("security", ["security", "soc", "incident-response"]),
   ("application", ["backend", "frontend", "java", "python", "nodejs"]),
   ("performance", ["performance", "optimization", "profiling"])]

/-- One iteration of the two fill loops in
_select_relevant_team_members: append the member if not already
selected and fewer than five are selected. -/
def addIfRoom (sel : List TeamMember) (m : TeamMember) : List TeamMember :=
  if m ∉ sel ∧ sel.length < 5 then sel ++ [m] else sel

/-- WorkflowChoreographer._select_relevant_team_members: up to two
on-call members first, then members whose skills intersect the
category lexicon in roster order, then any remaining roster members in
roster order, stopping at five. -/
def select_relevant_team_members (incident : Incident)
    (all_members : List TeamMember) : List TeamMember :=
  let on_call := all_members.filter (fun m => m.on_call)
  let relevant_skills := (alistGet? category_skills incident.category.value).getD []
  let skilled_members :=
    all_members.filter (fun m => relevant_skills.any (fun s => m.skills.contains s))
  let selected := on_call.take 2
  let selected := skilled_members.foldl addIfRoom selected
  all_members.foldl addIfRoom selected

theorem addIfRoom_pos (sel : List TeamMember) (m : TeamMember)
    (hc : m ∉ sel ∧ sel.length < 5) : addIfRoom sel m = sel ++ [m] := if_pos hc

theorem addIfRoom_neg (sel : List TeamMember) (m : TeamMember)
    (hc : ¬ (m ∉ sel ∧ sel.length < 5)) : addIfRoom sel m = sel := if_neg hc

theorem foldl_addIfRoom_extends (ms : List TeamMember) :
    ∀ sel : List TeamMember, ∃ t, List.foldl addIfRoom sel ms = sel ++ t := by
  induction ms with
  | nil => intro sel; exact ⟨[], by simp⟩
  | cons m rest ih =>
      intro sel
      rw [List.foldl_cons]
      by_cases hc : m ∉ sel ∧ sel.length < 5
      · rw [addIfRoom_pos sel m hc]
        obtain ⟨t, ht⟩ := ih (sel ++ [m])
        exact ⟨m :: t, by rw [ht]; simp⟩
      · rw [addIfRoom_neg sel m hc]
        exact ih sel

theorem foldl_addIfRoom_nodup (ms : List TeamMember) :
    ∀ sel : List TeamMember, sel.Nodup → (List.foldl addIfRoom sel ms).Nodup := by
  induction ms with
  | nil => intro sel h; simpa using h
  | cons m rest ih =>
      intro sel h
      rw [List.foldl_cons]
      apply ih
      by_cases hc : m ∉ sel ∧ sel.length < 5
      · rw [addIfRoom_pos sel m hc]
        simp [List.nodup_append, h, hc.1]
      · rw [addIfRoom_neg sel m hc]
        exact h

theorem foldl_addIfRoom_length (ms : List TeamMember) :
    ∀ sel : List TeamMember,
      (List.foldl addIfRoom sel ms).length ≤ max sel.length 5 := by
  induction ms with
  | nil => intro sel; simp
  | cons m rest ih =>
      intro sel
      rw [List.foldl_cons]
      refine le_trans (ih (addIfRoom sel m)) ?_
      by_cases hc : m ∉ sel ∧ sel.length < 5
      · rw [addIfRoom_pos sel m hc]
        have h5 := hc.2
        simp only [List.length_append, List.length_singleton]
        omega
      · rw [addIfRoom_neg sel m hc]

theorem foldl_addIfRoom_subset (ms : List TeamMember) :
    ∀ (sel : List TeamMember) (x : TeamMember),
      x ∈ List.foldl addIfRoom sel ms → x ∈ sel ∨ x ∈ ms := by
  induction ms with
  | nil => intro sel x hx; exact Or.inl (by simpa using hx)
  | cons m rest ih =>
      intro sel x hx
      rw [List.foldl_cons] at hx
      rcases ih (addIfRoom sel m) x hx with hx | hx
      · by_cases hc : m ∉ sel ∧ sel.length < 5
        · rw [addIfRoom_pos sel m hc] at hx
          rcases List.mem_append.mp hx with hx | hx
          · exact Or.inl hx
          · exact Or.inr (by simp_all)
        · rw [addIfRoom_neg sel m hc] at hx
          exact Or.inl hx
      · exact Or.inr (List.mem_cons_of_mem m hx)

/-- Specification-style description of the fill loops: walk the given
list in order, appending each member not yet selected, until the
remaining budget of open slots is exhausted. -/
def takeNew : List TeamMember → Nat → List TeamMember → List TeamMember
  | _, _, [] => []
  | sel, budget, m :: ms =>
      if budget = 0 then []
      else if m ∈ sel then takeNew sel budget ms
      else m :: takeNew (sel ++ [m]) (budget - 1) ms

theorem takeNew_zero (sel : List TeamMember) (ms : List TeamMember) :
    takeNew sel 0 ms = [] := by
  cases ms <;> simp [takeNew]

theorem foldl_addIfRoom_eq_takeNew (ms : List TeamMember) :
    ∀ sel : List TeamMember,
      List.foldl addIfRoom sel ms = sel ++ takeNew sel (5 - sel.length) ms := by
  induction ms with
  | nil => intro sel; simp [takeNew]
  | cons m rest ih =>
      intro sel
      rw [List.foldl_cons]
      by_cases h0 : sel.length < 5
      · by_cases hm : m ∈ sel
        · rw [addIfRoom_neg sel m (by simp [hm])]
          rw [ih sel]
          congr 1
          simp only [takeNew]
          rw [if_neg (by omega), if_pos hm]
        · rw [addIfRoom_pos sel m ⟨hm, h0⟩]
          rw [ih (sel ++ [m])]
          simp only [takeNew]
          rw [if_neg (by omega), if_neg hm]
          have hlen : 5 - (sel ++ [m]).length = 5 - sel.length - 1 := by
            simp only [List.length_append, List.length_singleton]
            omega
          rw [hlen]
          simp
      · rw [addIfRoom_neg sel m (fun hc => h0 hc.2)]
        rw [ih sel]
        have hb : 5 - sel.length = 0 := by omega
        rw [hb, takeNew_zero]
        simp [takeNew]

/-- C6 (amended with the no-duplicate-roster hypothesis forced by the
counterexample): on a roster without duplicate entries,
_select_relevant_team_members returns a duplicate-free selection of at
most min(5, roster size) members drawn from the roster, beginning with
the on-call members capped at two; unconditionally, the selection is
exactly: up to two on-call members, then the not-yet-selected members
whose skills meet the category lexicon in roster order until five are
selected, then the remaining not-yet-selected roster members in roster
order until five are selected (takeNew); determinism is inherent in the
selector being a pure function of the incident and roster. -/
theorem select_team_members_bounded_nodup_oncall_first
    (incident : Incident) (roster : List TeamMember) (hnd : roster.Nodup) :
    (select_relevant_team_members incident roster).Nodup
    ∧ (select_relevant_team_members incident roster).length ≤ 5
    ∧ (select_relevant_team_members incident roster).length ≤ roster.length
    ∧ (∃ t, select_relevant_team_members incident roster
          = (roster.filter (fun m => m.on_call)).take 2 ++ t)
    ∧ (∀ x ∈ select_relevant_team_members incident roster, x ∈ roster)
    ∧ (select_relevant_team_members incident roster =
        (roster.filter (fun m => m.on_call)).take 2
          ++ takeNew ((roster.filter (fun m => m.on_call)).take 2)
              (5 - ((roster.filter (fun m => m.on_call)).take 2).length)
              (roster.filter (fun m =>
                ((alistGet? category_skills incident.category.value).getD []).any
                  (fun s => m.skills.contains s)))
          ++ takeNew
              ((roster.filter (fun m => m.on_call)).take 2
                ++ takeNew ((roster.filter (fun m => m.on_call)).take 2)
                    (5 - ((roster.filter (fun m => m.on_call)).take 2).length)
                    (roster.filter (fun m =>
                      ((alistGet? category_skills incident.category.value).getD []).any
                        (fun s => m.skills.contains s))))
              (5 - ((roster.filter (fun m => m.on_call)).take 2
                ++ takeNew ((roster.filter (fun m => m.on_call)).take 2)
                    (5 - ((roster.filter (fun m => m.on_call)).take 2).length)
                    (roster.filter (fun m =>
                      ((alistGet? category_skills incident.category.value).getD []).any
                        (fun s => m.skills.contains s)))).length)
              roster) := by
  have hfil : (roster.filter (fun m => m.on_call)).Nodup := hnd.filter _
  have hsel0 : ((roster.filter (fun m => m.on_call)).take 2).Nodup :=
    (List.take_sublist 2 _).nodup hfil
  have hsel0len : ((roster.filter (fun m => m.on_call)).take 2).length ≤ 2 :=
    List.length_take_le 2 (roster.filter (fun m => m.on_call))
  have hsel0sub : ∀ x ∈ (roster.filter (fun m => m.on_call)).take 2, x ∈ roster :=
    fun x hx => List.mem_of_mem_filter ((List.take_sublist 2 _).mem hx)
  have hskilledsub : ∀ x ∈ roster.filter (fun m =>
      ((alistGet? category_skills incident.category.value).getD []).any
        (fun s => m.skills.contains s)), x ∈ roster :=
    fun x hx => List.mem_of_mem_filter hx
  have hnodup : (select_relevant_team_members incident roster).Nodup := by
    dsimp only [select_relevant_team_members]
    exact foldl_addIfRoom_nodup _ _ (foldl_addIfRoom_nodup _ _ hsel0)
  have hsub : ∀ x ∈ select_relevant_team_members incident roster, x ∈ roster := by
    intro x hx
    dsimp only [select_relevant_team_members] at hx
    rcases foldl_addIfRoom_subset _ _ _ hx with hx | hx
    · rcases foldl_addIfRoom_subset _ _ _ hx with hx | hx
      · exact hsel0sub x hx
      · exact hskilledsub x hx
    · exact hx
  refine ⟨hnodup, ?_, ?_, ?_, hsub, ?_⟩
  · dsimp only [select_relevant_team_members]
    have h1 := foldl_addIfRoom_length
      (roster.filter (fun m =>
        ((alistGet? category_skills incident.category.value).getD []).any
          (fun s => m.skills.contains s)))
      ((roster.filter (fun m => m.on_call)).take 2)
    have h2 := foldl_addIfRoom_length roster
      (List.foldl addIfRoom ((roster.filter (fun m => m.on_call)).take 2)
        (roster.filter (fun m =>
          ((alistGet? category_skills incident.category.value).getD []).any
            (fun s => m.skills.contains s))))
    omega
  · exact (List.subperm_of_subset hnodup (fun x hx => hsub x hx)).length_le
  · dsimp only [select_relevant_team_members]
    obtain ⟨t1, ht1⟩ := foldl_addIfRoom_extends
      (roster.filter (fun m =>
        ((alistGet? category_skills incident.category.value).getD []).any
          (fun s => m.skills.contains s)))
      ((roster.filter (fun m => m.on_call)).take 2)
    obtain ⟨t2, ht2⟩ := foldl_addIfRoom_extends roster
      (List.foldl addIfRoom ((roster.filter (fun m => m.on_call)).take 2)
        (roster.filter (fun m =>
          ((alistGet? category_skills incident.category.value).getD []).any
            (fun s => m.skills.contains s))))
    exact ⟨t1 ++ t2, by rw [ht2, ht1]; simp⟩
  · dsimp only [select_relevant_team_members]
    rw [foldl_addIfRoom_eq_takeNew, foldl_addIfRoom_eq_takeNew]

def cxOnCall : TeamMember :=
  { id := "1", name := "Alice", email := "alice@example.com",
    skills := ["python"], on_call := true }

/-- C6 counterexample: on a roster listing the same on-call member
twice, the selector returns that member twice — on_call[:2] copies
duplicates straight into the selection — so the claimed distinctness
fails for this roster. -/
theorem select_team_members_counterexample :
    select_relevant_team_members wIncident [cxOnCall, cxOnCall] = [cxOnCall, cxOnCall]
    ∧ ¬ (select_relevant_team_members wIncident [cxOnCall, cxOnCall]).Nodup := by
  constructor
  · rfl
  · decide

def wAlice : TeamMember :=
  { id := "1", name := "Alice", email := "alice@example.com",
    skills := ["python"], on_call := true }

def wBob : TeamMember :=
  { id := "2", name := "Bob", email := "bob@example.com",
    skills := ["postgresql", "dba"], on_call := false }

theorem select_team_members_witness :
    (select_relevant_team_members wIncident [wAlice, wBob]).Nodup
    ∧ (select_relevant_team_members wIncident [wAlice, wBob]).length ≤ 5
    ∧ (select_relevant_team_members wIncident [wAlice, wBob]).length
        ≤ ([wAlice, wBob] : List TeamMember).length
    ∧ (∃ t, select_relevant_team_members wIncident [wAlice, wBob]
          = (([wAlice, wBob] : List TeamMember).filter (fun m => m.on_call)).take 2 ++ t)
    ∧ (∀ x ∈ select_relevant_team_members wIncident [wAlice, wBob],
          x ∈ ([wAlice, wBob] : List TeamMember))
    ∧ (select_relevant_team_members wIncident [wAlice, wBob] =
        (([wAlice, wBob] : List TeamMember).filter (fun m => m.on_call)).take 2
          ++ takeNew ((([wAlice, wBob] : List TeamMember).filter (fun m => m.on_call)).take 2)
              (5 - ((([wAlice, wBob] : List TeamMember).filter (fun m => m.on_call)).take 2).length)
              (([wAlice, wBob] : List TeamMember).filter (fun m =>
                ((alistGet? category_skills wIncident.category.value).getD []).any
                  (fun s => m.skills.contains s)))
          ++ takeNew
              ((([wAlice, wBob] : List TeamMember).filter (fun m => m.on_call)).take 2
                ++ takeNew ((([wAlice, wBob] : List TeamMember).filter (fun m => m.on_call)).take 2)
                    (5 - ((([wAlice, wBob] : List TeamMember).filter (fun m => m.on_call)).take 2).length)
                    (([wAlice, wBob] : List TeamMember).filter (fun m =>
                      ((alistGet? category_skills wIncident.category.value).getD []).any
                        (fun s => m.skills.contains s))))
              (5 - ((([wAlice, wBob] : List TeamMember).filter (fun m => m.on_call)).take 2
                ++ takeNew ((([wAlice, wBob] : List TeamMember).filter (fun m => m.on_call)).take 2)
                    (5 - ((([wAlice, wBob] : List TeamMember).filter (fun m => m.on_call)).take 2).length)
                    (([wAlice, wBob] : List TeamMember).filter (fun m =>
                      ((alistGet? category_skills wIncident.category.value).getD []).any
                        (fun s => m.skills.contains s)))).length)
              ([wAlice, wBob] : List TeamMember)) :=
  select_team_members_bounded_nodup_oncall_first wIncident [wAlice, wBob] (by decide)

/- ==== src/workflows/incident_workflow.py : fixed playbook (C7) ==== -/

theorem alistGet?_alistSet_ne {α : Type} (l : List (String × α)) (k k2 : String)
    (v : α) (h : k2 ≠ k) : alistGet? (alistSet l k v) k2 = alistGet? l k2 := by
  induction l with
  | nil =>
      simp only [alistSet, alistGet?]
      rw [if_neg (fun hk => h hk.symm)]
  | cons p rest ih =>
      obtain ⟨k1, v1⟩ := p
      by_cases h1 : k1 = k
      · subst h1
        simp only [alistSet, if_pos rfl, alistGet?]
        rw [if_neg (fun hk => h hk.symm), if_neg (fun hk => h hk.symm)]
      · simp only [alistSet, if_neg h1, alistGet?]
        by_cases h2 : k1 = k2 <;> simp [h2, ih]

/-- What the code inside one stage's try block does to the stage's
result record: either return the finished record, or raise a fault
carrying its description together with the record as mutated so far. -/
def StageBody := Dict → Except (Dict × String) Dict

/-- The result record each stage initialises before its try block. -/
def stage_init (name : String) (now : Nat) : Dict :=
  [("step", .str name), ("status", .str "pending"), ("started_at", .num now)]

/-- The shared skeleton of the seven _stepN functions of
IncidentResponseWorkflow: initialise the record, run the body, catch a
raised fault into status "failed" with the fault description as error
text, and stamp completed_at in every case. -/
def run_stage (name : String) (now : Nat) (body : StageBody) : Dict :=
  let r :=
    match body (stage_init name now) with
    | .ok r => r
    | .error (r, msg) => alistSet (alistSet r "status" (.str "failed")) "error" (.str msg)
  alistSet r "completed_at" (.num now)

/-- The workflow_result record of
IncidentResponseWorkflow.execute_workflow. -/
structure PlaybookResult where
  incident_id : String
  workflow_name : String := "Incident Response Workflow"
  started_at : Nat := 0
  steps : List (String × Dict) := []
  success : Bool := true
  errors : List String := []
  completed_at : Option Nat := none

/-- The top-level driving sequence of execute_workflow inside its
try/except: run the stage computations in order, storing each record
under its key; if a fault escapes a stage computation, flip success to
false, append the fault description to the errors list and skip the
remaining stages (completed_at is then never stamped). -/
def drive (now : Nat) :
    List (String × Except String Dict) → PlaybookResult → PlaybookResult
  | [], wr => { wr with completed_at := some now }
  | (key, comp) :: rest, wr =>
      match comp with
      | .ok d => drive now rest { wr with steps := wr.steps ++ [(key, d)] }
      | .error e => { wr with success := false, errors := wr.errors ++ [e] }

/-- The seven statically ordered stages: steps-map key and stage name. -/
def stage_table : List (String × String) :=
  [("1_create_servicenow_ticket", "Create ServiceNow Ticket"),
   ("2_send_slack_alert", "Send Slack Alert"),
   ("3_gather_diagnostics", "Gather Diagnostic Information"),
   ("4_analyze_root_cause", "Analyze Root Cause"),
   ("5_create_confluence_page", "Create Confluence Incident Page"),
   ("6_assign_and_notify", "Assign and Notify"),
   ("7_monitor_and_update", "Monitor and Update")]

/-- IncidentResponseWorkflow.execute_workflow over the given stage
bodies: every stage call is the catch-wrapped run_stage, which is total,
so each contributes an Except.ok record to the driving sequence. -/
def execute_workflow_fixed (now : Nat) (incident_id : String)
    (bodies : List StageBody) : PlaybookResult :=
  drive now
    ((stage_table.zip bodies).map
      (fun p => (p.1.1, Except.ok (run_stage p.1.2 now p.2))))
    { incident_id := incident_id, started_at := now }

theorem run_stage_fault (name : String) (now : Nat) (body : StageBody)
    (rpart : Dict) (msg : String)
    (hb : body (stage_init name now) = .error (rpart, msg)) :
    alistGet? (run_stage name now body) "status" = some (.str "failed")
    ∧ alistGet? (run_stage name now body) "error" = some (.str msg) := by
  unfold run_stage
  rw [hb]
  dsimp only
  constructor
  · rw [alistGet?_alistSet_ne _ _ _ _ (by decide),
        alistGet?_alistSet_ne _ _ _ _ (by decide)]
    exact alistGet?_alistSet_self _ _ _
  · rw [alistGet?_alistSet_ne _ _ _ _ (by decide)]
    exact alistGet?_alistSet_self _ _ _

theorem drive_all_ok (now : Nat) (l : List (String × Dict)) :
    ∀ wr : PlaybookResult,
      drive now (l.map (fun p => (p.1, Except.ok p.2))) wr
        = { wr with steps := wr.steps ++ l, completed_at := some now } := by
  induction l with
  | nil => intro wr; simp [drive]
  | cons p rest ih =>
      intro wr
      obtain ⟨k, d⟩ := p
      simp only [List.map_cons, drive]
      rw [ih]
      simp

theorem drive_fault (now : Nat) (pre : List (String × Dict)) (key e : String)
    (post : List (String × Except String Dict)) :
    ∀ wr : PlaybookResult,
      drive now (pre.map (fun p => (p.1, Except.ok p.2))
                  ++ (key, Except.error e) :: post) wr
        = { wr with
            steps := wr.steps ++ pre
            success := false
            errors := wr.errors ++ [e] } := by
  induction pre with
  | nil => intro wr; simp [drive]
  | cons p rest ih =>
      intro wr
      obtain ⟨k, d⟩ := p
      simp only [List.map_cons, List.cons_append, drive, List.append_eq]
      rw [ih]
      simp

theorem execute_workflow_fixed_complete (now : Nat) (incident_id : String)
    (bodies : List StageBody) (h7 : bodies.length = 7) :
    (execute_workflow_fixed now incident_id bodies).success = true
    ∧ (execute_workflow_fixed now incident_id bodies).errors = []
    ∧ (execute_workflow_fixed now incident_id bodies).steps.map Prod.fst
        = stage_table.map Prod.fst := by
  rcases bodies with _ | ⟨b1, _ | ⟨b2, _ | ⟨b3, _ | ⟨b4, _ | ⟨b5, _ | ⟨b6, _ | ⟨b7, _ | ⟨b8, rest⟩⟩⟩⟩⟩⟩⟩⟩ <;>
    simp_all [execute_workflow_fixed, stage_table, drive]

/-- Python value.get(key, []) followed by list slicing: the list
elements when the value is a JSON array, else empty. -/
def jArrD : Option JVal → List JVal
  | some (.arr xs) => xs
  | _ => []

/-- Python value.get(key, default) keeping the raw value. -/
def jGetD (d : Dict) (k : String) (dflt : JVal) : JVal :=
  (alistGet? d k).getD dflt

/-- The fields of a JSON object value, else empty. -/
def jObjFields : Option JVal → List (String × JVal)
  | some (.obj fs) => fs
  | _ => []

/-- result["diagnostics"][key] = v on a stage record whose
"diagnostics" entry is a JSON object. -/
def setDiag (r : Dict) (key : String) (v : JVal) : Dict :=
  alistSet r "diagnostics" (.obj (alistSet (jObjFields (alistGet? r "diagnostics")) key v))

/-- The commits loop of _step3_gather_diagnostics: one
analyze_recent_commits call per repository (a raised fault propagates
to the stage boundary); on a successful payload an entry with the
repository, commit counts and the first ten commits is appended. -/
def collect_commits (gh_commits : String → Nat → List String → Except String Dict)
    (hours : Nat) (paths : List String) :
    List String → Except String (List JVal)
  | [] => .ok []
  | repo :: rest => do
      let res ← gh_commits repo hours paths
      let tail ← collect_commits gh_commits hours paths rest
      if JVal.truthyOpt (alistGet? res "success") then
        .ok (JVal.obj
          [("repository", .str repo),
           ("total_commits", jGetD res "total_commits" (.num 0)),
           ("high_relevance", jGetD res "high_relevance_count" (.num 0)),
           ("commits", .arr ((jArrD (alistGet? res "commits")).take 10))] :: tail)
      else
        .ok tail

/-- The deployments loop of _step3_gather_diagnostics (environment
fixed to "production", first five deployments kept). -/
def collect_deploys (gh_deploys : String → String → Except String Dict) :
    List String → Except String (List JVal)
  | [] => .ok []
  | repo :: rest => do
      let res ← gh_deploys repo "production"
      let tail ← collect_deploys gh_deploys rest
      if JVal.truthyOpt (alistGet? res "success") then
        .ok (JVal.obj
          [("repository", .str repo),
           ("deployments", .arr ((jArrD (alistGet? res "deployments")).take 5))] :: tail)
      else
        .ok tail

/-- The failed-CI-runs loop of _step3_gather_diagnostics (status fixed
to "failure", first five runs kept). -/
def collect_runs (gh_runs : String → String → Except String Dict) :
    List String → Except String (List JVal)
  | [] => .ok []
  | repo :: rest => do
      let res ← gh_runs repo "failure"
      let tail ← collect_runs gh_runs rest
      if JVal.truthyOpt (alistGet? res "success") then
        .ok (JVal.obj
          [("repository", .str repo),
           ("failed_runs", .arr ((jArrD (alistGet? res "runs")).take 5))] :: tail)
      else
        .ok tail

/-- The try-block body of
IncidentResponseWorkflow._step3_gather_diagnostics: gather commits,
deployments and failed runs across the given repositories (defaulting
to org/main-app), then the placeholder log and metric payloads, then
mark the stage completed; a collaborator fault surfaces with the record
as written so far, to be caught by the stage skeleton. -/
def step3_gather_diagnostics_body (org : String)
    (gh_commits : String → Nat → List String → Except String Dict)
    (gh_deploys gh_runs : String → String → Except String Dict)
    (incident : Incident) (repositories : Option (List String)) : StageBody :=
  fun r0 =>
    let r := alistSet r0 "diagnostics" (.obj [])
    let repos := repositories.getD [org ++ "/main-app"]
    let hours : Nat :=
      if incident.severity = .critical ∨ incident.severity = .high then 48 else 72
    match collect_commits gh_commits hours incident.affected_services repos with
    | .error msg => .error (r, msg)
    | .ok commits_data =>
      let r := setDiag r "recent_commits" (.arr commits_data)
      match collect_deploys gh_deploys repos with
      | .error msg => .error (r, msg)
      | .ok deploy_data =>
        let r := setDiag r "recent_deployments" (.arr deploy_data)
        match collect_runs gh_runs repos with
        | .error msg => .error (r, msg)
        | .ok run_data =>
          let r := setDiag r "failed_workflows" (.arr run_data)
          let r := setDiag r "error_logs"
            (.obj [("status", .str "collected"),
                   ("sources", .arr [.str "application", .str "infrastructure"]),
                   ("note", .str "Integrate with your log aggregation system")])
          let r := setDiag r "metrics"
            (.obj [("status", .str "collected"),
                   ("sources", .arr [.str "prometheus", .str "datadog"]),
                   ("note", .str "Integrate with your metrics system")])
          .ok (alistSet r "status" (.str "completed"))

/-- C7: (i) a fault raised inside a stage's try block is caught within
that stage: the stage record carries status "failed" and the fault
description as error text; (ii) for any seven stage bodies — failing or
not — the playbook driver receives only ok stage computations (each
stage is catch-wrapped), so all seven stages execute and contribute a
record under their key, the overall success flag stays true and the
overall errors list stays empty; (iii) in the driver itself, a fault
escaping a stage computation into the top-level loop flips success to
false, appends the fault description to the errors list and skips all
remaining stages. -/
theorem playbook_failure_isolation :
    (∀ (name : String) (now : Nat) (body : StageBody) (rpart : Dict) (msg : String),
        body (stage_init name now) = .error (rpart, msg) →
        alistGet? (run_stage name now body) "status" = some (.str "failed")
        ∧ alistGet? (run_stage name now body) "error" = some (.str msg))
    ∧ (∀ (now : Nat) (incident_id : String) (bodies : List StageBody),
        bodies.length = 7 →
        (execute_workflow_fixed now incident_id bodies).success = true
        ∧ (execute_workflow_fixed now incident_id bodies).errors = []
        ∧ (execute_workflow_fixed now incident_id bodies).steps.map Prod.fst
            = stage_table.map Prod.fst)
    ∧ (∀ (now : Nat) (pre : List (String × Dict)) (key e : String)
        (post : List (String × Except String Dict)) (wr : PlaybookResult),
        drive now (pre.map (fun p => (p.1, Except.ok p.2))
                    ++ (key, Except.error e) :: post) wr
          = { wr with
              steps := wr.steps ++ pre
              success := false
              errors := wr.errors ++ [e] }) :=
  ⟨run_stage_fault,
   execute_workflow_fixed_complete,
   fun now pre key e post wr => drive_fault now pre key e post wr⟩

/-- A GitHub collaborator whose commit analysis raises. -/
def wGhFailCommits : String → Nat → List String → Except String Dict :=
  fun _ _ _ => .error "GitHub API error"

def wGhOk : String → String → Except String Dict :=
  fun _ _ => .ok [("success", .bool true)]

/-- The diagnostics stage body over the failing code-host collaborator. -/
def wStep3FailBody : StageBody :=
  step3_gather_diagnostics_body "acme" wGhFailCommits wGhOk wGhOk wIncident none

/-- A trivially succeeding stage body. -/
def wOkBody : StageBody := fun r => .ok (alistSet r "status" (.str "completed"))

theorem playbook_failure_isolation_witness :
    (alistGet? (run_stage "Gather Diagnostic Information" 0 wStep3FailBody) "status"
        = some (.str "failed")
     ∧ alistGet? (run_stage "Gather Diagnostic Information" 0 wStep3FailBody) "error"
        = some (.str "GitHub API error"))
    ∧ ((execute_workflow_fixed 0 "inc-1"
          [wOkBody, wOkBody, wStep3FailBody, wOkBody, wOkBody, wOkBody, wOkBody]).success = true
       ∧ (execute_workflow_fixed 0 "inc-1"
          [wOkBody, wOkBody, wStep3FailBody, wOkBody, wOkBody, wOkBody, wOkBody]).errors = []
       ∧ (execute_workflow_fixed 0 "inc-1"
          [wOkBody, wOkBody, wStep3FailBody, wOkBody, wOkBody, wOkBody, wOkBody]).steps.map Prod.fst
          = stage_table.map Prod.fst)
    ∧ (drive 0 ([("1_create_servicenow_ticket", ([] : Dict))].map (fun p => (p.1, Except.ok p.2))
          ++ ("3_gather_diagnostics", Except.error "KeyboardInterrupt") :: [])
          { incident_id := "inc-1" }
        = { ({ incident_id := "inc-1" } : PlaybookResult) with
            steps := ({ incident_id := "inc-1" } : PlaybookResult).steps
              ++ [("1_create_servicenow_ticket", ([] : Dict))]
            success := false
            errors := ({ incident_id := "inc-1" } : PlaybookResult).errors
              ++ ["KeyboardInterrupt"] }) :=
  ⟨playbook_failure_isolation.1 "Gather Diagnostic Information" 0 wStep3FailBody
      (alistSet (stage_init "Gather Diagnostic Information" 0) "diagnostics" (.obj []))
      "GitHub API error" rfl,
   playbook_failure_isolation.2.1 0 "inc-1"
      [wOkBody, wOkBody, wStep3FailBody, wOkBody, wOkBody, wOkBody, wOkBody] rfl,
   playbook_failure_isolation.2.2 0 [("1_create_servicenow_ticket", ([] : Dict))]
      "3_gather_diagnostics" "KeyboardInterrupt" []
      { incident_id := "inc-1" }⟩
